import Mathlib

/-!
Verification development for the PriceTracker-Pro repository.

The repository's core (trend fitting, forecasting, buy/wait decision and
resolution fallback) lives in the Python backend `app.py` / `app_enhanced.py`,
which the snapshot only documents (README files); the frontend code
(`predictPrices`, `UIController.getSortedPredictionEntries`, ...) is present
in `price-predictor_1.jsx` and is embedded here directly.  JavaScript /
Python floating-point numbers are idealised as rationals.
-/

namespace PriceTracker

/-- Fallback tier of the data backing a trend model. -/
inductive SourceKind
  | EXACT
  | SIMILAR
  | CATEGORY
  deriving DecidableEq, Repr

/-- Modelled from the spec: the `TrendModel` record of the missing backend
(`app.py` trains one linear model per product): slope and intercept of the
linear fit of price against elapsed days, an R²-like goodness-of-fit value,
and the fallback tier the data came from (spec §3, §4.2). -/
structure TrendModel where
  slope : ℚ
  intercept : ℚ
  fitMetric : ℚ
  sourceKind : SourceKind
  deriving DecidableEq, Repr

/-- A single historical observation: (timestamp in days, price).  Spec §3. -/
abbrev Observation : Type := ℤ × ℚ

/-- A time-ordered series of observations for one product or category. -/
abbrev Series : Type := List Observation

/-- Earliest timestamp of a series (0 for the empty series). -/
def minTimestamp (s : Series) : ℤ :=
  match s with
  | [] => 0
  | o :: rest => rest.foldl (fun m p => min m p.1) o.1

/-- Observations re-keyed to elapsed days relative to the earliest timestamp
(spec §4.2: "elapsed-days integer relative to the series' earliest
timestamp"). -/
def elapsedPairs (s : Series) : List (ℚ × ℚ) :=
  s.map (fun o => (((o.1 - minTimestamp s : ℤ) : ℚ), o.2))

/-- Modelled from the spec: the Trend Fitter `fit(Series) -> TrendModel` of
the missing backend (`app.py`, "Train Linear Regression per product";
spec §4.2).  Ordinary least squares of price on elapsed day, with the
degenerate guards of spec §4.2: zero elapsed-day variance gives slope 0,
zero price variance gives fitMetric 0, and fitMetric is clamped to [0,1].
The fallback tier is supplied by the resolution orchestrator. -/
def fit (k : SourceKind) (s : Series) : TrendModel :=
  let xs := elapsedPairs s
  let n : ℚ := xs.length
  let sx : ℚ := (xs.map (fun p => p.1)).sum
  let sy : ℚ := (xs.map (fun p => p.2)).sum
  let sxx : ℚ := (xs.map (fun p => p.1 * p.1)).sum
  let sxy : ℚ := (xs.map (fun p => p.1 * p.2)).sum
  let denom : ℚ := n * sxx - sx * sx
  let slope : ℚ := if denom = 0 then 0 else (n * sxy - sx * sy) / denom
  let intercept : ℚ := if n = 0 then 0 else (sy - slope * sx) / n
  let mean : ℚ := if n = 0 then 0 else sy / n
  let ssres : ℚ := (xs.map (fun p => (p.2 - (slope * p.1 + intercept)) ^ 2)).sum
  let sstot : ℚ := (xs.map (fun p => (p.2 - mean) ^ 2)).sum
  let r2 : ℚ := if sstot = 0 then 0 else 1 - ssres / sstot
  ⟨slope, intercept, max 0 (min 1 r2), k⟩

/-- Modelled from the spec: the configurable positive minimum at which
forecasts are floored (spec §4.3: "floored at a configurable minimum ...
clamp to a small positive epsilon"). -/
def MIN_FORECAST_PRICE : ℚ := 1 / 100

/-- Modelled from the spec: the Forecaster of the missing backend
(`predict_future_prices` in `app.py`; spec §4.3):
`predictedPrice = slope * (currentDay + horizonDays) + intercept`,
floored at `MIN_FORECAST_PRICE`. -/
def forecastPrice (m : TrendModel) (currentDay : ℤ) (horizonDays : ℕ) : ℚ :=
  max MIN_FORECAST_PRICE (m.slope * ((currentDay : ℚ) + (horizonDays : ℚ)) + m.intercept)

/-- A point forecast at one horizon (spec §3). -/
structure Forecast where
  horizonDays : ℕ
  predictedPrice : ℚ
  deriving DecidableEq, Repr

/-- Modelled from the spec: forecasts for an ordered list of horizons
(spec §4.3). -/
def forecast (m : TrendModel) (currentDay : ℤ) (horizons : List ℕ) : List Forecast :=
  horizons.map (fun h => ⟨h, forecastPrice m currentDay h⟩)

/-- Buy/wait action of a recommendation. -/
inductive Action
  | BUY_NOW
  | WAIT
  deriving DecidableEq, Repr

/-- Recommendation record (spec §3). -/
structure Recommendation where
  action : Action
  savings : ℚ
  bestHorizonDays : ℕ
  confidence : ℚ
  deriving DecidableEq, Repr

/-- Modelled from the spec: per-tier confidence discount factors (spec §4.4:
"a fixed discount factor per fallback tier (e.g., SIMILAR ×0.85,
CATEGORY ×0.7) ... a tunable constant"). -/
def discountFactor (k : SourceKind) : ℚ :=
  match k with
  | .EXACT => 1
  | .SIMILAR => 85 / 100
  | .CATEGORY => 7 / 10

/-- Modelled from the spec: recommendation confidence is the trend model's
fitMetric scaled by the tier discount (spec §4.4). -/
def confidenceFor (m : TrendModel) : ℚ :=
  m.fitMetric * discountFactor m.sourceKind

/-- Running minimum-by-predictedPrice over a list of forecasts, seeded with a
first forecast (the spec's "find the forecast with the minimum
predictedPrice among all horizons"). -/
def bestForecast (f : Forecast) (fs : List Forecast) : Forecast :=
  fs.foldl (fun acc g => if g.predictedPrice < acc.predictedPrice then g else acc) f

/-- Modelled from the spec: the Decision Engine `make_buying_decision` of the
missing backend (`app.py`; spec §4.4).  Takes the best (minimum) forecast; if
the relative drop reaches the threshold it recommends WAIT with the savings
and that forecast's horizon, otherwise BUY_NOW with zero savings and horizon
0.  On an empty forecast list (not produced by the pipeline) it defaults to
BUY_NOW. -/
def make_buying_decision (m : TrendModel) (currentPrice : ℚ)
    (forecasts : List Forecast) (threshold : ℚ) : Recommendation :=
  match forecasts with
  | [] => ⟨.BUY_NOW, 0, 0, confidenceFor m⟩
  | f :: fs =>
    let bf := bestForecast f fs
    if threshold ≤ (currentPrice - bf.predictedPrice) / currentPrice then
      ⟨.WAIT, currentPrice - bf.predictedPrice, bf.horizonDays, confidenceFor m⟩
    else
      ⟨.BUY_NOW, 0, 0, confidenceFor m⟩

/-- A product entry of the time-series store: product key, its normalized
keywords, and its price series (spec §4.1, §4.5). -/
structure ProductEntry where
  key : String
  keywords : List String
  series : Series
  deriving DecidableEq, Repr

/-- Modelled from the spec: the read-only TimeSeries Store of the missing
backend (`app.py` loads `data.csv` into per-product and per-category tables;
spec §4.1), together with the keyword-to-category lookup table of §4.5. -/
structure Store where
  products : List ProductEntry
  categories : List (String × Series)
  keywordToCategory : List (String × String)
  deriving DecidableEq, Repr

/-- The resolved product request passed into the core (spec §3). -/
structure ProductQuery where
  normalizedKey : String
  keywords : List String
  category : Option String
  deriving DecidableEq, Repr

/-- Modelled from the spec: minimum keyword overlap for the SIMILAR tier
(spec §4.5, a tunable constant). -/
def MIN_KEYWORD_OVERLAP : ℕ := 1

/-- Number of query keywords also present in a product's keywords (the
keyword overlap score of spec §4.5). -/
def overlapScore (a b : List String) : ℕ :=
  (a.filter (fun w => b.contains w)).length

/-- EXACT tier lookup: the product series stored under the query's
normalized key (spec §4.5, state EXACT). -/
def lookupExact (st : Store) (q : ProductQuery) : Option Series :=
  (st.products.find? (fun p => p.key == q.normalizedKey)).map (fun p => p.series)

/-- First element of maximal score among scored candidates. -/
def pickBest (l : List (ℕ × ProductEntry)) : Option (ℕ × ProductEntry) :=
  l.foldl (fun acc x =>
    match acc with
    | none => some x
    | some a => if a.1 < x.1 then some x else some a) none

/-- SIMILAR tier lookup: the highest-overlap product at or above the minimum
overlap threshold (spec §4.5, state SIMILAR). -/
def lookupSimilar (st : Store) (q : ProductQuery) : Option Series :=
  let scored := st.products.map (fun p => (overlapScore q.keywords p.keywords, p))
  let candidates := scored.filter (fun x => decide (MIN_KEYWORD_OVERLAP ≤ x.1))
  (pickBest candidates).map (fun x => x.2.series)

/-- The query's category, supplied or inferred from the keyword-to-category
table (spec §4.5, state CATEGORY). -/
def resolveCategoryKey (st : Store) (q : ProductQuery) : Option String :=
  match q.category with
  | some c => some c
  | none =>
    (st.keywordToCategory.find? (fun kv => q.keywords.contains kv.1)).map
      (fun kv => kv.2)

/-- CATEGORY tier lookup: the category series, treating an empty category
series as a miss (spec §4.5: "no category resolvable or category series
empty" is terminal failure). -/
def lookupCategory (st : Store) (q : ProductQuery) : Option Series :=
  match resolveCategoryKey st q with
  | none => none
  | some c =>
    match st.categories.find? (fun kv => kv.1 == c) with
    | none => none
    | some kv => if kv.2 = [] then none else some kv.2

/-- Terminal result of resolution: a fitted model at some tier, or the
NoDataAvailable failure (spec §4.5, §7). -/
inductive Resolution
  | success (k : SourceKind) (m : TrendModel)
  | noDataAvailable
  deriving DecidableEq, Repr

/-- Modelled from the spec: the Resolution/Fallback Orchestrator of the
missing backend (`app_enhanced.py`; README "Fallback Strategy"; spec §4.5):
try EXACT, then SIMILAR, then CATEGORY, else fail.  The first component
records the tiers attempted, in order. -/
def resolveQuery (st : Store) (q : ProductQuery) : List SourceKind × Resolution :=
  match lookupExact st q with
  | some s => ([.EXACT], .success .EXACT (fit .EXACT s))
  | none =>
    match lookupSimilar st q with
    | some s => ([.EXACT, .SIMILAR], .success .SIMILAR (fit .SIMILAR s))
    | none =>
      match lookupCategory st q with
      | some s =>
        ([.EXACT, .SIMILAR, .CATEGORY], .success .CATEGORY (fit .CATEGORY s))
      | none => ([.EXACT, .SIMILAR, .CATEGORY], .noDataAvailable)

/-- JavaScript Math.round: round half toward positive infinity. -/
def jsRound (x : ℚ) : ℤ := ⌊x + 1 / 2⌋

/-- The `trendMultiplier[trend] || 1.0` lookup of `predictPrices` in
`price-predictor_1.jsx`, restricted to own-property hits and genuine misses:
2 percent monthly increase or decrease for the three own keys, else the
`|| 1.0` default.  A trend string naming an inherited `Object.prototype`
member (such as "toString") hits the prototype chain instead of falling to
the default; that case is non-numeric and is modelled by
`jsLookupMultiplier` and `predictPricesJs` below. -/
def trendMultiplier (trend : String) : ℚ :=
  if trend = "increasing" then 102 / 100
  else if trend = "decreasing" then 98 / 100
  else if trend = "stable" then 1
  else 1

/-- One month's prediction record of `predictPrices` (month index and rounded
price; the `monthName` field is wall-clock locale presentation and is not
modelled). -/
structure Prediction where
  month : ℕ
  price : ℤ
  deriving DecidableEq, Repr

/-- The loop body of `predictPrices` in `price-predictor_1.jsx`: each month
the running price is multiplied by the trend multiplier, a random variation
`(Math.random() - 0.5) * 0.03 * currentPrice` is added (the i-th draw is
`rands i`), and the rounded price is recorded while the unrounded price is
carried forward.  `fuel` counts the remaining iterations. -/
def predictAux (currentPrice mult : ℚ) (rands : ℕ → ℚ) :
    ℕ → ℕ → ℚ → List Prediction
  | _, 0, _ => []
  | i, fuel + 1, price =>
    let price2 := price * mult + (rands i - 1 / 2) * (3 / 100) * currentPrice
    ⟨i + 1, jsRound price2⟩ :: predictAux currentPrice mult rands (i + 1) fuel price2

/-- The `predictPrices` function of `price-predictor_1.jsx`: six monthly
predictions from the current price and trend string, with the sequence of
`Math.random()` draws made explicit as the argument `rands`. -/
def predictPrices (currentPrice : ℚ) (trend : String) (rands : ℕ → ℚ) :
    List Prediction :=
  predictAux currentPrice (trendMultiplier trend) rands 0 6 currentPrice

/-- Property names every object literal inherits from `Object.prototype`;
each names a truthy member (a method, or the prototype object itself for
"__proto__"), so `obj[name] || fallback` keeps the inherited member instead
of the fallback. -/
def OBJECT_PROTOTYPE_KEYS : List String :=
  ["constructor", "hasOwnProperty", "isPrototypeOf", "propertyIsEnumerable",
    "toLocaleString", "toString", "valueOf", "__proto__", "__defineGetter__",
    "__defineSetter__", "__lookupGetter__", "__lookupSetter__"]

/-- The full JavaScript lookup `trendMultiplier[trend] || 1.0` of
`price-predictor_1.jsx`, prototype chain included: `some q` when an own key
(or the `|| 1.0` default after an undefined miss) produces the number q, and
`none` when the trend string names an inherited truthy `Object.prototype`
member — a non-number, which behaves as NaN in the subsequent price
arithmetic. -/
def jsLookupMultiplier (trend : String) : Option ℚ :=
  if trend = "increasing" then some (102 / 100)
  else if trend = "decreasing" then some (98 / 100)
  else if trend = "stable" then some 1
  else if OBJECT_PROTOTYPE_KEYS.contains trend then none
  else some 1

/-- JavaScript multiplication over number-or-NaN values: any non-number
operand makes the result NaN (none). -/
def jsMul : Option ℚ → Option ℚ → Option ℚ
  | some a, some b => some (a * b)
  | _, _ => none

/-- JavaScript addition over number-or-NaN values: any non-number operand
makes the result NaN (none). -/
def jsAdd : Option ℚ → Option ℚ → Option ℚ
  | some a, some b => some (a + b)
  | _, _ => none

/-- One month's prediction record with a possibly-NaN rounded price
(`Math.round(NaN)` is NaN, modelled as none). -/
structure PredictionJs where
  month : ℕ
  price : Option ℤ
  deriving DecidableEq, Repr

/-- The `predictPrices` loop of `price-predictor_1.jsx` with NaN propagation
made explicit: the running price is an `Option ℚ` (none modelling NaN), so a
non-numeric multiplier poisons every subsequent price while the month fields
are unaffected. -/
def predictAuxJs (currentPrice : ℚ) (mult : Option ℚ) (rands : ℕ → ℚ) :
    ℕ → ℕ → Option ℚ → List PredictionJs
  | _, 0, _ => []
  | i, fuel + 1, price =>
    let price2 := jsAdd (jsMul price mult)
      (some ((rands i - 1 / 2) * (3 / 100) * currentPrice))
    ⟨i + 1, price2.map jsRound⟩ ::
      predictAuxJs currentPrice mult rands (i + 1) fuel price2

/-- The `predictPrices` function of `price-predictor_1.jsx` with the
multiplier taken from the full JavaScript lookup (`jsLookupMultiplier`,
prototype chain included) and NaN propagation explicit. -/
def predictPricesJs (currentPrice : ℚ) (trend : String) (rands : ℕ → ℚ) :
    List PredictionJs :=
  predictAuxJs currentPrice (jsLookupMultiplier trend) rands 0 6
    (some currentPrice)

/-- A JavaScript value as seen by `typeof v === 'number'`: either a number
(idealised as a rational) or anything else. -/
inductive JsVal
  | num (q : ℚ)
  | other
  deriving DecidableEq, Repr

/-- The `typeof value === 'number'` test. -/
def isNumber : JsVal → Bool
  | .num _ => true
  | .other => false

/-- The numeric payload of a number value. -/
def numVal : JsVal → ℚ
  | .num q => q
  | .other => 0

/-- Value of a leading run of decimal digits, or none if it is empty. -/
def parseDigits (cs : List Char) : Option ℕ :=
  let ds := cs.takeWhile (fun c => c.isDigit)
  if ds.isEmpty then none
  else some (ds.foldl (fun n c => 10 * n + (c.toNat - 48)) 0)

/-- JavaScript `parseInt(s, 10)`: skip leading whitespace, read an optional
sign and then a leading run of decimal digits; none models NaN. -/
def jsParseInt (s : String) : Option ℤ :=
  match s.toList.dropWhile (fun c => c.isWhitespace) with
  | '-' :: rest => (parseDigits rest).map (fun n => -(n : ℤ))
  | '+' :: rest => (parseDigits rest).map (fun n => (n : ℤ))
  | cs => (parseDigits cs).map (fun n => (n : ℤ))

/-- The text before the first underscore: JavaScript
`key.split(<underscore>)[0]`. -/
def splitHead (s : String) : String := (s.splitOn "_").headD ""

/-- An item produced by `getSortedPredictionEntries`: key, parsed day count
and numeric value. -/
structure PredEntry where
  key : String
  days : ℤ
  value : ℚ
  deriving DecidableEq, Repr

/-- Comparator of `getSortedPredictionEntries`:
`(a, b) => a.days - b.days`. -/
def byDays (a b : PredEntry) : Prop := a.days ≤ b.days

instance : DecidableRel byDays :=
  fun a b => inferInstanceAs (Decidable (a.days ≤ b.days))

instance : IsTotal PredEntry byDays :=
  ⟨fun a b => le_total a.days b.days⟩

instance : IsTrans PredEntry byDays :=
  ⟨fun _ _ _ hab hbc => le_trans hab hbc⟩

/-- The `UIController.getSortedPredictionEntries` method of
`price-predictor_1.jsx`: filter to keys ending in "_days" with number
values, parse the day count from the text before the first underscore,
drop NaN day counts, and sort ascending by days.  A JS object's entries are
modelled as an association list in insertion order; `Array.prototype.sort`
with this comparator is a stable sort, modelled by insertion sort.  The
intermediate day count is an `Option ℤ`, none modelling NaN. -/
def getSortedPredictionEntries (predictions : List (String × JsVal)) :
    List PredEntry :=
  let stage1 := predictions.filter
    (fun kv => kv.1.endsWith "_days" && isNumber kv.2)
  let stage2 := stage1.map
    (fun kv => (kv.1, jsParseInt (splitHead kv.1), numVal kv.2))
  let stage3 := stage2.filterMap (fun x =>
    match x.2.1 with
    | some d => some ⟨x.1, d, x.2.2⟩
    | none => none)
  List.insertionSort byDays stage3

/-- The selection described by C9 as a single pass: keep exactly the entries
whose key ends in "_days", whose value is a number, and whose text before
the first underscore parses to an integer day count. -/
def keepEntry (kv : String × JsVal) : Option PredEntry :=
  match kv.2 with
  | .num q =>
    if kv.1.endsWith "_days" then
      match jsParseInt (splitHead kv.1) with
      | some d => some ⟨kv.1, d, q⟩
      | none => none
    else none
  | .other => none

/-- Unfolding equation for `bestForecast` on a cons cell. -/
theorem bestForecast_cons (f x : Forecast) (xs : List Forecast) :
    bestForecast f (x :: xs) =
      bestForecast (if x.predictedPrice < f.predictedPrice then x else f) xs := rfl

/-- The seeded running minimum is one of the seed and the list elements. -/
theorem bestForecast_mem (f : Forecast) (fs : List Forecast) :
    bestForecast f fs ∈ f :: fs := by
  induction fs generalizing f with
  | nil => simp [bestForecast]
  | cons g gs ih =>
    rw [bestForecast_cons]
    by_cases h : g.predictedPrice < f.predictedPrice
    · rw [if_pos h]
      rcases List.mem_cons.mp (ih g) with h1 | h1
      · rw [h1]
        exact List.mem_cons_of_mem _ (List.mem_cons_self _ _)
      · exact List.mem_cons_of_mem _ (List.mem_cons_of_mem _ h1)
    · rw [if_neg h]
      rcases List.mem_cons.mp (ih f) with h1 | h1
      · rw [h1]
        exact List.mem_cons_self _ _
      · exact List.mem_cons_of_mem _ (List.mem_cons_of_mem _ h1)

/-- The seeded running minimum is at most its seed. -/
theorem bestForecast_le_seed (f : Forecast) (fs : List Forecast) :
    (bestForecast f fs).predictedPrice ≤ f.predictedPrice := by
  induction fs generalizing f with
  | nil => simp [bestForecast]
  | cons x xs ih =>
    rw [bestForecast_cons]
    by_cases h : x.predictedPrice < f.predictedPrice
    · rw [if_pos h]
      exact le_trans (ih x) (le_of_lt h)
    · rw [if_neg h]
      exact ih f

/-- The seeded running minimum is a lower bound of the seed and all list
elements. -/
theorem bestForecast_le (f : Forecast) (fs : List Forecast) :
    ∀ g ∈ f :: fs, (bestForecast f fs).predictedPrice ≤ g.predictedPrice := by
  induction fs generalizing f with
  | nil =>
    intro g hg
    simp only [List.mem_singleton] at hg
    simp [bestForecast, hg]
  | cons x xs ih =>
    intro g hg
    rw [bestForecast_cons]
    rcases List.mem_cons.mp hg with hg | hg
    · subst hg
      by_cases h : x.predictedPrice < g.predictedPrice
      · rw [if_pos h]
        exact le_trans (bestForecast_le_seed x xs) (le_of_lt h)
      · rw [if_neg h]
        exact bestForecast_le_seed g xs
    · rcases List.mem_cons.mp hg with hg | hg
      · subst hg
        by_cases h : g.predictedPrice < f.predictedPrice
        · rw [if_pos h]
          exact bestForecast_le_seed g xs
        · rw [if_neg h]
          exact le_trans (bestForecast_le_seed f xs) (le_of_not_lt h)
      · by_cases h : x.predictedPrice < f.predictedPrice
        · rw [if_pos h]
          exact ih x g (List.mem_cons_of_mem _ hg)
        · rw [if_neg h]
          exact ih f g (List.mem_cons_of_mem _ hg)

/-- The confidence reported by the decision engine is the tier-discounted
fitMetric, in every branch. -/
theorem confidence_of_decision (m : TrendModel) (c th : ℚ) (fs : List Forecast) :
    (make_buying_decision m c fs th).confidence = confidenceFor m := by
  cases fs with
  | nil => rfl
  | cons f fs =>
    simp only [make_buying_decision]
    split <;> rfl

/-- C1: For every current price, non-empty sequence of forecasts, and
threshold, the decision operation selects the forecast with the minimum
predictedPrice among all horizons as bestForecast; if
(currentPrice - bestForecast.predictedPrice) / currentPrice >= threshold it
returns action WAIT with savings = currentPrice - bestForecast.predictedPrice
and bestHorizonDays = bestForecast.horizonDays, and otherwise it returns
action BUY_NOW with savings = 0 and bestHorizonDays = 0. -/
theorem C1_decision_min_forecast_threshold (m : TrendModel)
    (currentPrice threshold : ℚ) (f : Forecast) (fs : List Forecast) :
    ∃ bf : Forecast, bf ∈ f :: fs ∧
      (∀ g ∈ f :: fs, bf.predictedPrice ≤ g.predictedPrice) ∧
      make_buying_decision m currentPrice (f :: fs) threshold =
        if threshold ≤ (currentPrice - bf.predictedPrice) / currentPrice then
          ⟨.WAIT, currentPrice - bf.predictedPrice, bf.horizonDays, confidenceFor m⟩
        else
          ⟨.BUY_NOW, 0, 0, confidenceFor m⟩ :=
  ⟨bestForecast f fs, bestForecast_mem f fs, bestForecast_le f fs, rfl⟩

/-- C1 witness: the theorem applied at the concrete worked example from the
README (current price 45999, forecasts at horizons 7/15/30, threshold 5%). -/
theorem C1_decision_min_forecast_threshold_witness :
    ∃ bf : Forecast, bf ∈ (⟨7, 44500⟩ : Forecast) :: [⟨15, 43200⟩, ⟨30, 41800⟩] ∧
      (∀ g ∈ (⟨7, 44500⟩ : Forecast) :: [⟨15, 43200⟩, ⟨30, 41800⟩],
        bf.predictedPrice ≤ g.predictedPrice) ∧
      make_buying_decision ⟨0, 0, 78 / 100, .EXACT⟩ 45999
          ((⟨7, 44500⟩ : Forecast) :: [⟨15, 43200⟩, ⟨30, 41800⟩]) (5 / 100) =
        if (5 / 100 : ℚ) ≤ (45999 - bf.predictedPrice) / 45999 then
          ⟨.WAIT, 45999 - bf.predictedPrice, bf.horizonDays,
            confidenceFor ⟨0, 0, 78 / 100, .EXACT⟩⟩
        else
          ⟨.BUY_NOW, 0, 0, confidenceFor ⟨0, 0, 78 / 100, .EXACT⟩⟩ :=
  C1_decision_min_forecast_threshold ⟨0, 0, 78 / 100, .EXACT⟩ 45999 (5 / 100)
    ⟨7, 44500⟩ [⟨15, 43200⟩, ⟨30, 41800⟩]

/-- C2: For currentPrice = 45999, forecasts horizon 7 at 44500, horizon 15 at
43200, horizon 30 at 41800, and threshold = 0.05, the decision operation
returns action WAIT, savings = 4199, and bestHorizonDays = 30 (relative drop
4199/45999, about 9.1 percent, is at least 5 percent). -/
theorem C2_worked_example :
    (make_buying_decision ⟨0, 0, 85 / 100, .EXACT⟩ 45999
        [⟨7, 44500⟩, ⟨15, 43200⟩, ⟨30, 41800⟩] (5 / 100)).action = .WAIT ∧
    (make_buying_decision ⟨0, 0, 85 / 100, .EXACT⟩ 45999
        [⟨7, 44500⟩, ⟨15, 43200⟩, ⟨30, 41800⟩] (5 / 100)).savings = 4199 ∧
    (make_buying_decision ⟨0, 0, 85 / 100, .EXACT⟩ 45999
        [⟨7, 44500⟩, ⟨15, 43200⟩, ⟨30, 41800⟩] (5 / 100)).bestHorizonDays = 30 := by
  norm_num [make_buying_decision, bestForecast, confidenceFor, discountFactor]

/-- C3: For every trend model (however pathological its slope), every current
day and every horizon, the forecast price is strictly positive: the raw
linear projection is floored at the positive configurable minimum. -/
theorem C3_forecast_strictly_positive (m : TrendModel) (d : ℤ) (h : ℕ) :
    0 < forecastPrice m d h :=
  lt_of_lt_of_le (by norm_num [MIN_FORECAST_PRICE]) (le_max_left _ _)

/-- C5: For every series with at least two distinct elapsed-day values whose
fitted slope is positive, forecasts are monotone non-decreasing in the
horizon; with a negative fitted slope the inequality is reversed. -/
theorem C5_forecast_monotone_in_horizon (s : Series) (k : SourceKind) (d : ℤ)
    (h1 h2 : ℕ) (_hdist : ∃ o1 ∈ s, ∃ o2 ∈ s, o1.1 ≠ o2.1) (hlt : h1 < h2) :
    (0 < (fit k s).slope →
      forecastPrice (fit k s) d h1 ≤ forecastPrice (fit k s) d h2) ∧
    ((fit k s).slope < 0 →
      forecastPrice (fit k s) d h2 ≤ forecastPrice (fit k s) d h1) := by
  have hc : ((d : ℚ) + (h1 : ℚ)) ≤ ((d : ℚ) + (h2 : ℚ)) := by
    have hh : (h1 : ℚ) ≤ (h2 : ℚ) := by exact_mod_cast hlt.le
    linarith
  constructor
  · intro hs
    unfold forecastPrice
    apply max_le_max le_rfl
    have hm := mul_le_mul_of_nonneg_left hc hs.le
    linarith
  · intro hs
    unfold forecastPrice
    apply max_le_max le_rfl
    have hm := mul_le_mul_of_nonpos_left hc hs.le
    linarith

/-- C5 witness: a two-observation series with strictly increasing prices has
positive fitted slope and its 7-day forecast is at most its 30-day
forecast. -/
theorem C5_forecast_monotone_in_horizon_witness :
    0 < (fit .EXACT [((0 : ℤ), (10 : ℚ)), (1, 20)]).slope ∧
      forecastPrice (fit .EXACT [((0 : ℤ), (10 : ℚ)), (1, 20)]) 1 7 ≤
        forecastPrice (fit .EXACT [((0 : ℤ), (10 : ℚ)), (1, 20)]) 1 30 :=
  ⟨by norm_num [fit, elapsedPairs, minTimestamp],
    (C5_forecast_monotone_in_horizon [((0 : ℤ), (10 : ℚ)), (1, 20)] .EXACT 1 7 30
      (by decide) (by decide)).1 (by norm_num [fit, elapsedPairs, minTimestamp])⟩

/-- C6: The recommendation confidence equals the trend model's fitMetric for
sourceKind EXACT, and the fitMetric scaled by the fixed per-tier discount
constants (SIMILAR ×0.85, CATEGORY ×0.7) for the fallback tiers; it is not a
constant independent of the fit. -/
theorem C6_confidence_is_discounted_fitMetric (sl ic fm c th : ℚ)
    (fs : List Forecast) :
    (make_buying_decision ⟨sl, ic, fm, .EXACT⟩ c fs th).confidence = fm ∧
    (make_buying_decision ⟨sl, ic, fm, .SIMILAR⟩ c fs th).confidence =
      fm * (85 / 100) ∧
    (make_buying_decision ⟨sl, ic, fm, .CATEGORY⟩ c fs th).confidence =
      fm * (7 / 10) ∧
    ∃ m1 m2 : TrendModel, m1.sourceKind = m2.sourceKind ∧
      (make_buying_decision m1 c fs th).confidence ≠
        (make_buying_decision m2 c fs th).confidence := by
  refine ⟨?_, ?_, ?_, ⟨0, 0, 0, .EXACT⟩, ⟨0, 0, 1, .EXACT⟩, rfl, ?_⟩
  · rw [confidence_of_decision]
    simp [confidenceFor, discountFactor]
  · rw [confidence_of_decision]
    simp [confidenceFor, discountFactor]
  · rw [confidence_of_decision]
    simp [confidenceFor, discountFactor]
  · rw [confidence_of_decision, confidence_of_decision]
    simp [confidenceFor, discountFactor]

/-- C8: For every usable (non-empty) series the fitted fitMetric lies in
[0,1]; a single-observation series fits to slope 0, intercept equal to that
observation's price, and fitMetric 0. -/
theorem C8_fitMetric_bounds_and_single_point (k : SourceKind) (s : Series)
    (_hs : s ≠ []) :
    (0 ≤ (fit k s).fitMetric ∧ (fit k s).fitMetric ≤ 1) ∧
    (∀ (t : ℤ) (p : ℚ), fit k [(t, p)] = ⟨0, p, 0, k⟩) := by
  constructor
  · have hr : ∃ r : ℚ, (fit k s).fitMetric = max 0 (min 1 r) := ⟨_, rfl⟩
    obtain ⟨r, hrr⟩ := hr
    rw [hrr]
    exact ⟨le_max_left 0 _, max_le (by norm_num) (min_le_left 1 r)⟩
  · intro t p
    simp only [fit, elapsedPairs, minTimestamp, List.foldl_nil, List.map_cons,
      List.map_nil, List.sum_cons, List.sum_nil, List.length_cons,
      List.length_nil, sub_self, Int.cast_zero]
    norm_num

/-- C8 witness: the theorem applied to the one-observation series
[(0, 5)]. -/
theorem C8_fitMetric_bounds_and_single_point_witness :
    (0 ≤ (fit .EXACT [((0 : ℤ), (5 : ℚ))]).fitMetric ∧
      (fit .EXACT [((0 : ℤ), (5 : ℚ))]).fitMetric ≤ 1) ∧
    (∀ (t : ℤ) (p : ℚ), fit .EXACT [(t, p)] = ⟨0, p, 0, .EXACT⟩) :=
  C8_fitMetric_bounds_and_single_point .EXACT [((0 : ℤ), (5 : ℚ))] (by decide)

/-- C7: For every request, the resolution orchestrator attempts each tier at
most once (duplicate-free attempt trace), in the strict order EXACT then
SIMILAR then CATEGORY, and terminates in exactly one of the four terminal
states: success at the last attempted tier, or NoDataAvailable after all
three tiers. -/
theorem C7_resolution_ordered_and_terminal (st : Store) (q : ProductQuery) :
    (resolveQuery st q).1.Nodup ∧
    ((∃ m, (resolveQuery st q).2 = .success .EXACT m ∧
        (resolveQuery st q).1 = [.EXACT]) ∨
     (∃ m, (resolveQuery st q).2 = .success .SIMILAR m ∧
        (resolveQuery st q).1 = [.EXACT, .SIMILAR]) ∨
     (∃ m, (resolveQuery st q).2 = .success .CATEGORY m ∧
        (resolveQuery st q).1 = [.EXACT, .SIMILAR, .CATEGORY]) ∨
     ((resolveQuery st q).2 = .noDataAvailable ∧
        (resolveQuery st q).1 = [.EXACT, .SIMILAR, .CATEGORY])) := by
  unfold resolveQuery
  rcases hE : lookupExact st q with _ | s
  · rcases hS : lookupSimilar st q with _ | s2
    · rcases hC : lookupCategory st q with _ | s3
      · constructor
        · show ([.EXACT, .SIMILAR, .CATEGORY] : List SourceKind).Nodup
          decide
        · exact Or.inr (Or.inr (Or.inr ⟨rfl, rfl⟩))
      · constructor
        · show ([.EXACT, .SIMILAR, .CATEGORY] : List SourceKind).Nodup
          decide
        · exact Or.inr (Or.inr (Or.inl ⟨fit .CATEGORY s3, rfl, rfl⟩))
    · constructor
      · show ([.EXACT, .SIMILAR] : List SourceKind).Nodup
        decide
      · exact Or.inr (Or.inl ⟨fit .SIMILAR s2, rfl, rfl⟩)
  · constructor
    · show ([.EXACT] : List SourceKind).Nodup
      decide
    · exact Or.inl ⟨fit .EXACT s, rfl, rfl⟩

/-- C10 counterexample: the trend string "toString" is none of the three
known keys, yet it is not treated as a multiplier of 1.0 — the bracket
lookup walks the prototype chain and yields the truthy inherited
`Object.prototype.toString`, so every predicted price is NaN, while a
genuinely unknown trend string at the same inputs keeps the numeric prices
that multiplier 1.0 gives. -/
theorem C10_prototype_lookup_counterexample :
    ("toString" ≠ "increasing" ∧ "toString" ≠ "decreasing" ∧
      "toString" ≠ "stable") ∧
    jsLookupMultiplier "toString" ≠ some 1 ∧
    (predictPricesJs 100 "toString" (fun _ => 1 / 2)).map (fun p => p.price) =
      [none, none, none, none, none, none] ∧
    (predictPricesJs 100 "volatile" (fun _ => 1 / 2)).map (fun p => p.price) =
      [some 100, some 100, some 100, some 100, some 100, some 100] := by
  refine ⟨by decide, by decide, by decide, ?_⟩
  have hv : jsLookupMultiplier "volatile" = some 1 := by decide
  show (predictAuxJs 100 (jsLookupMultiplier "volatile") (fun _ => 1 / 2) 0 6
      (some 100)).map (fun p => p.price) = _
  rw [hv]
  norm_num [predictAuxJs, jsMul, jsAdd, jsRound]

/-- C10 (amended): For every current price and every trend string,
`predictPrices` returns exactly 6 predictions whose month fields are 1
through 6 in ascending order; a trend string other than the three known
keys is treated as a multiplier of 1.0 only when it does not name an
inherited `Object.prototype` member, and when it does name one the lookup
yields the truthy inherited member and every predicted price is NaN. -/
theorem C10_predictPricesJs_months (c : ℚ) (t : String) (r : ℕ → ℚ) :
    (predictPricesJs c t r).map (fun p => p.month) = [1, 2, 3, 4, 5, 6] ∧
    (predictPricesJs c t r).length = 6 ∧
    (t ≠ "increasing" → t ≠ "decreasing" → t ≠ "stable" →
      OBJECT_PROTOTYPE_KEYS.contains t = false →
      jsLookupMultiplier t = some 1) ∧
    (jsLookupMultiplier t = none →
      (predictPricesJs c t r).map (fun p => p.price) =
        [none, none, none, none, none, none]) := by
  refine ⟨rfl, rfl, ?_, ?_⟩
  · intro h1 h2 h3 hc
    unfold jsLookupMultiplier
    rw [if_neg h1, if_neg h2, if_neg h3, hc]
    simp
  · intro hm
    show (predictAuxJs c (jsLookupMultiplier t) r 0 6 (some c)).map
        (fun p => p.price) = _
    rw [hm]
    rfl

/-- C10 witness: the amended theorem applied at a genuinely unknown trend
("volatile": the default multiplier 1 applies) and at the inherited name
"toString" (every predicted price NaN). -/
theorem C10_predictPricesJs_months_witness :
    jsLookupMultiplier "volatile" = some 1 ∧
    (predictPricesJs 123 "toString" (fun _ => 0)).map (fun p => p.price) =
      [none, none, none, none, none, none] :=
  ⟨(C10_predictPricesJs_months 123 "volatile" (fun _ => 0)).2.2.1 (by decide)
      (by decide) (by decide) (by decide),
    (C10_predictPricesJs_months 123 "toString" (fun _ => 0)).2.2.2 (by decide)⟩

/-- `predictAux` only reads the draws at indices i, i+1, ..., i+fuel-1. -/
theorem predictAux_congr (c m : ℚ) (r1 r2 : ℕ → ℚ) :
    ∀ (fuel i : ℕ) (p : ℚ), (∀ j, j < fuel → r1 (i + j) = r2 (i + j)) →
      predictAux c m r1 i fuel p = predictAux c m r2 i fuel p := by
  intro fuel
  induction fuel with
  | zero => intro i p _; rfl
  | succ n ih =>
    intro i p h
    have h0 : r1 i = r2 i := by
      have := h 0 (Nat.succ_pos n)
      simpa using this
    have htail : ∀ j, j < n → r1 (i + 1 + j) = r2 (i + 1 + j) := by
      intro j hj
      have hidx : i + (j + 1) = i + 1 + j := by omega
      have := h (j + 1) (by omega)
      rw [hidx] at this
      exact this
    show (⟨i + 1, jsRound (p * m + (r1 i - 1 / 2) * (3 / 100) * c)⟩ : Prediction) ::
        predictAux c m r1 (i + 1) n (p * m + (r1 i - 1 / 2) * (3 / 100) * c) =
      (⟨i + 1, jsRound (p * m + (r2 i - 1 / 2) * (3 / 100) * c)⟩ : Prediction) ::
        predictAux c m r2 (i + 1) n (p * m + (r2 i - 1 / 2) * (3 / 100) * c)
    rw [h0]
    exact congrArg _ (ih (i + 1) _ htail)

/-- C4 counterexample: `predictPrices` is not a function of the current price
and trend alone — at current price 100 and trend "stable", the random draw
sequences 1/2 and 1/6 produce different prediction lists (the first months
round to 100 and 99 respectively), so two runs of the pipeline need not be
bit-for-bit identical. -/
theorem C4_two_runs_differ :
    predictPrices 100 "stable" (fun _ => 1 / 2) ≠
      predictPrices 100 "stable" (fun _ => 1 / 6) := by
  intro h
  have h1 := congrArg (fun l => (l.headD ⟨0, 0⟩).price) h
  simp only [predictPrices, predictAux, trendMultiplier, List.headD_cons,
    String.reduceEq, if_false] at h1
  norm_num [jsRound] at h1

/-- C4 (amended): the `predictPrices` pipeline is deterministic once the
random draws are fixed — its output depends only on the current price, the
trend string, and the first six `Math.random()` draws. -/
theorem C4_deterministic_given_draws (c : ℚ) (t : String) (r1 r2 : ℕ → ℚ)
    (h : ∀ j, j < 6 → r1 j = r2 j) :
    predictPrices c t r1 = predictPrices c t r2 := by
  unfold predictPrices
  exact predictAux_congr c (trendMultiplier t) r1 r2 6 0 c (by simpa using h)

/-- C4 witness: the amended determinism theorem applied to two draw
sequences that agree on the first six indices but differ beyond them. -/
theorem C4_deterministic_given_draws_witness :
    predictPrices 100 "stable" (fun j => if j < 6 then 1 / 2 else 0) =
      predictPrices 100 "stable" (fun j => if j < 6 then 1 / 2 else 7) :=
  C4_deterministic_given_draws 100 "stable" _ _ (by intro j hj; simp [hj])

/-- The filter/map/filter chain of `getSortedPredictionEntries` computes the
single-pass selection `keepEntry`. -/
theorem stages_eq_keepEntry (l : List (String × JsVal)) :
    ((l.filter (fun kv => kv.1.endsWith "_days" && isNumber kv.2)).map
        (fun kv => (kv.1, jsParseInt (splitHead kv.1), numVal kv.2))).filterMap
      (fun x =>
        match x.2.1 with
        | some d => some ⟨x.1, d, x.2.2⟩
        | none => none) = l.filterMap keepEntry := by
  induction l with
  | nil => rfl
  | cons kv tl ih =>
    rcases kv with ⟨k, v⟩
    cases v with
    | num q =>
      cases hk : k.endsWith "_days" with
      | true =>
        cases hp : jsParseInt (splitHead k) with
        | none =>
          simpa [List.filter_cons, List.filterMap_cons, keepEntry, isNumber,
            numVal, hk, hp] using ih
        | some d =>
          simpa [List.filter_cons, List.filterMap_cons, keepEntry, isNumber,
            numVal, hk, hp] using ih
      | false =>
        simpa [List.filter_cons, List.filterMap_cons, keepEntry, isNumber,
          hk] using ih
    | other =>
      simpa [List.filter_cons, List.filterMap_cons, keepEntry, isNumber]
        using ih

/-- C9: For every predictions object, `getSortedPredictionEntries` returns a
list sorted in ascending order of day count, and its items are exactly (as a
multiset) the entries whose key ends in "_days" with a numeric value and a
parsable integer day count, regardless of the order of keys in the input. -/
theorem C9_getSortedPredictionEntries_sorted_exact
    (predictions : List (String × JsVal)) :
    List.Sorted byDays (getSortedPredictionEntries predictions) ∧
    (getSortedPredictionEntries predictions).Perm
      (predictions.filterMap keepEntry) := by
  constructor
  · exact List.sorted_insertionSort byDays _
  · unfold getSortedPredictionEntries
    refine (List.perm_insertionSort byDays _).trans ?_
    rw [stages_eq_keepEntry]

end PriceTracker
